import Mathlib

/-!
Verification development for `libavformat/imfdec.c`: the IMF Asset Map
parser, registry lifecycle and demuxer entry points.

The XML tree, the libavutil string helpers and the libxml2 accessors used by
the C file are embedded shallowly; machine pointers become `Option`, and the
parser's `while` loop becomes a fuel-indexed recursion whose `diverge`
constructor records fuel exhaustion (the C loop has no fuel, so a result that
is `diverge` for every fuel models non-termination).
-/

namespace Imfdec

/-- An XML element node: tag name, direct element children (in document
order), and textual content.  Text/comment nodes are abstracted away: the
C code only ever navigates element children (`xmlFirstElementChild`,
`xmlNextElementSibling`) and reads textual content (`xmlNodeGetContent`). -/
inductive XmlElem where
  | mk (name : String) (children : List XmlElem) (content : String)

def XmlElem.name : XmlElem → String
  | .mk n _ _ => n

def XmlElem.children : XmlElem → List XmlElem
  | .mk _ c _ => c

def XmlElem.content : XmlElem → String
  | .mk _ _ t => t

/-- An XML document: `xmlReadMemory` may produce a document with no root
element; a NULL `xmlDocPtr` is `Option XmlDoc`'s `none` at use sites. -/
structure XmlDoc where
  root : Option XmlElem

/-- libxml2 `xmlDocGetRootElement`: returns NULL on a NULL document and the
root element (possibly NULL) otherwise. -/
def xmlDocGetRootElement : Option XmlDoc → Option XmlElem
  | none => none
  | some d => d.root

/-- `av_tolower`: ASCII-only lower-casing of one character. -/
def av_tolower (c : Char) : Char :=
  if 'A' ≤ c ∧ c ≤ 'Z' then Char.ofNat (c.toNat + 32) else c

/-- libavutil `av_strcasecmp`, observed only through `== 0` / `!= 0` in this
file: `0` exactly when the two strings are equal up to ASCII case. -/
def av_strcasecmp (a b : String) : Int :=
  if a.data.map av_tolower = b.data.map av_tolower then 0 else 1

/-- libxml2 `xmlNodeGetContent`: NULL on a NULL node, else the (possibly
empty) textual content of the node. -/
def xmlNodeGetContent : Option XmlElem → Option String
  | none => none
  | some n => some n.content

/-- Modelled from the spec: `xml_get_child_element_by_name` is declared in
`imf_internal.h` but its implementation is not under `src/`.  Per the spec it
is the find-child-by-name tree query, with tag comparisons case-insensitive
throughout: the first direct child element whose tag matches. -/
def xml_get_child_element_by_name (parent : XmlElem) (name : String) : Option XmlElem :=
  parent.children.find? (fun c => av_strcasecmp c.name name == 0)

def hexVal (c : Char) : Option Nat :=
  if '0' ≤ c ∧ c ≤ '9' then some (c.toNat - '0'.toNat)
  else if 'a' ≤ c ∧ c ≤ 'f' then some (c.toNat - 'a'.toNat + 10)
  else if 'A' ≤ c ∧ c ≤ 'F' then some (c.toNat - 'A'.toNat + 10)
  else none

/-- Decode an 8-4-4-4-12 hyphenated hexadecimal UUID string into its 16
bytes; `none` when the string is not of that shape.  Case-insensitive on the
hex digits. -/
def uuidDecode (s : String) : Option (List Nat) :=
  let cs := s.data
  if cs.length = 36 then
    if (cs.getD 8 ' ' = '-') ∧ (cs.getD 13 ' ' = '-') ∧
       (cs.getD 18 ' ' = '-') ∧ (cs.getD 23 ' ' = '-') then
      let hex := (List.range 36).filterMap fun i =>
        if i = 8 ∨ i = 13 ∨ i = 18 ∨ i = 23 then none else hexVal (cs.getD i ' ')
      if hex.length = 32 then
        some ((List.range 16).map fun i => 16 * hex.getD (2 * i) 0 + hex.getD (2 * i + 1) 0)
      else none
    else none
  else none

/-- ASCII whitespace test. -/
def isWs (c : Char) : Bool :=
  c = ' ' ∨ c = '\t' ∨ c = '\n' ∨ c = '\r'

/-- Strip leading and trailing ASCII whitespace (the spec treats
whitespace-only text as empty/missing). -/
def trimWs (s : String) : String :=
  ⟨((s.data.dropWhile isWs).reverse.dropWhile isWs).reverse⟩

/-- Modelled from the spec: `xml_read_UUID` is declared in `imf_internal.h`
but its implementation is not under `src/`.  Per the spec it reads the text
of the given node and decodes it as an 8-4-4-4-12 hyphenated hex UUID,
failing when the node is missing or its text is empty, whitespace-only, or
not decodable.  The C function returns nonzero on failure and fills a 16-byte
buffer on success; here success carries the 16 bytes. -/
def xml_read_UUID (node : Option XmlElem) : Option (List Nat) :=
  match node with
  | none => none
  | some n => uuidDecode (trimWs n.content)

/-- libavutil `av_append_path_component` (avstring.c): join two path
components with a single `/` separator; a NULL side yields a copy of the
other side, and an empty side yields the other side. -/
def av_append_path_component (path : Option String) (component : Option String) :
    Option String :=
  match path, component with
  | none, c => c
  | some p, none => some p
  | some p, some c =>
    if c.data.length = 0 then some p
    else if p.data.length = 0 then some c
    else if p.data.getLast? = some '/' ∧ c.data.head? = some '/' then
      some ⟨p.data ++ c.data.drop 1⟩
    else if p.data.getLast? ≠ some '/' ∧ c.data.head? ≠ some '/' then
      some ⟨p.data ++ '/' :: c.data⟩
    else some ⟨p.data ++ c.data⟩

def AVERROR_INVALIDDATA : Int := -1094995529

def AVERROR_EOF : Int := -541478725

/-- `IMFAssetLocator` (imf.h): a decoded 16-byte UUID and the resolved
absolute URI string. -/
structure AssetLocator where
  uuid : List Nat
  absolute_uri : String
deriving DecidableEq, Repr

/-- `IMFAssetMap`: the registry, a pointer array of locators plus an explicit
count (the realloc'd array is abstracted by the list). -/
structure IMFAssetMap where
  assets : List AssetLocator
  asset_count : Nat
deriving DecidableEq, Repr

/-- `imf_asset_map_alloc` (lines 133–143): a fresh empty registry. -/
def imf_asset_map_alloc : IMFAssetMap :=
  { assets := [], asset_count := 0 }

/-- State threaded through the parser: the registry under construction and
the net number of outstanding heap allocations the parser has made
(`av_malloc`/`xmlNodeGetContent`/`av_append_path_component`/`strdup` minus
`av_free`/`av_freep`).  Allocation is assumed to succeed (the C code does not
check `av_malloc`'s result either). -/
structure ParseState where
  asset_map : IMFAssetMap
  live : Nat
deriving DecidableEq, Repr

/-- `sizeof(IMFAssetLocator)` on LP64: a 16-byte `uuid` array plus an 8-byte
`absolute_uri` pointer. -/
def SIZEOF_IMF_ASSET_LOCATOR : Nat := 24

/-- `sizeof(IMFAssetLocator *)` on LP64. -/
def SIZEOF_PTR : Nat := 8

/-- Result of running the parser's `while` loop with a given amount of fuel:
`out ret st` is the C function returning `ret` in state `st`; `diverge` is
fuel exhaustion; `overflow` is the out-of-bounds store of line 127 into the
undersized block realloc'd on line 126 — undefined behaviour, after which the
C program has no defined result. -/
inductive LoopResult where
  | out (ret : Int) (st : ParseState)
  | diverge
  | overflow
deriving DecidableEq, Repr

/-- The `while (node)` loop of `parse_imf_asset_map_from_xml_dom`
(lines 92–128).  The cursor is the list of remaining siblings (`node` is its
head; NULL is `[]`).  Transcription notes, keyed to the source lines:
* 93–95: a child whose tag is not `Asset` hits `continue` with the cursor
  unchanged — the recursive call is on the same list;
* 97: `asset = av_malloc(...)` (+1 live allocation);
* 99–103: UUID failure frees the asset (`av_freep`) and returns `1`;
* 107–115: missing `ChunkList`/`Chunk` returns `AVERROR_INVALIDDATA` with the
  asset still allocated;
* 117: `xmlNodeGetContent` allocates when it returns a string, and that
  string is overwritten on line 118 without being freed;
* 118–120: `av_append_path_component` allocates, `strdup` allocates, and
  `av_free(uri)` releases the appended path;
* 124: `node = xmlNextElementSibling(node->parent->parent)`: `node` is the
  `Chunk`, its parent the `ChunkList`, its grandparent the `Asset` at the
  head of the cursor, so the next cursor is the tail;
* 126–127: `av_realloc(assets, asset_count + 1 * sizeof(IMFAssetLocator))`
  allocates `asset_count + sizeof(IMFAssetLocator)` bytes (`1 * sizeof`
  binds first), while the store `assets[asset_count] = asset` needs
  `(asset_count + 1) * sizeof(IMFAssetLocator *)` bytes; when it fits, the
  locator is appended and `asset_count` incremented (the array abstracted by
  the list), and otherwise the store is past the end of the block — a heap
  buffer overflow, `overflow` here, which on LP64 sizes first happens at the
  4th entry (`(3 + 1) * 8 > 3 + 24`). -/
def parse_asset_loop (base_url : String) :
    Nat → List XmlElem → ParseState → LoopResult
  | 0, _, _ => .diverge
  | _ + 1, [], st => .out 0 st
  | fuel + 1, n :: rest, st =>
    if av_strcasecmp n.name "Asset" ≠ 0 then
      parse_asset_loop base_url fuel (n :: rest) st
    else
      let live1 := st.live + 1
      match xml_read_UUID (xml_get_child_element_by_name n "Id") with
      | none => .out 1 { st with live := live1 - 1 }
      | some uuid =>
        match xml_get_child_element_by_name n "ChunkList" with
        | none => .out AVERROR_INVALIDDATA { st with live := live1 }
        | some chunkList =>
          match xml_get_child_element_by_name chunkList "Chunk" with
          | none => .out AVERROR_INVALIDDATA { st with live := live1 }
          | some chunk =>
            let content := xmlNodeGetContent (xml_get_child_element_by_name chunk "Path")
            let live2 := live1 + (if content.isSome then 1 else 0)
            let uri := av_append_path_component (some base_url) content
            let live3 := live2 + 1
            let abs := uri.getD ""
            let live4 := live3 + 1 - 1
            let am := st.asset_map
            if (am.asset_count + 1) * SIZEOF_PTR ≤ am.asset_count + SIZEOF_IMF_ASSET_LOCATOR then
              parse_asset_loop base_url fuel rest
                { asset_map := { assets := am.assets ++ [{ uuid := uuid, absolute_uri := abs }],
                                 asset_count := am.asset_count + 1 },
                  live := live4 }
            else .overflow

/-- `parse_imf_asset_map_from_xml_dom` (lines 65–131): root-element lookup
and checks (72–89), then the asset-locator loop.  The `type !=
XML_ELEMENT_NODE` guard on line 79 is vacuous here since the model only holds
element nodes. -/
def parse_imf_asset_map_from_xml_dom (doc : Option XmlDoc) (st : ParseState)
    (base_url : String) (fuel : Nat) : LoopResult :=
  match xmlDocGetRootElement doc with
  | none => .out AVERROR_INVALIDDATA st
  | some root =>
    if av_strcasecmp root.name "AssetMap" ≠ 0 then .out AVERROR_INVALIDDATA st
    else
      match xml_get_child_element_by_name root "AssetList" with
      | none => .out AVERROR_INVALIDDATA st
      | some assetList => parse_asset_loop base_url fuel assetList.children st

/-- `parse_assetmap` (lines 158–215), its parsing core: the registry is
freshly allocated (line 169), the byte-stream read and `xmlReadMemory` are
abstracted into the `doc` argument (a NULL document when the bytes are not
well-formed XML), and the return value is the DOM parser's return code
(`ret != 0` only skips the debug log before `xmlFreeDoc`; the code is
returned unchanged).  `none` models an execution with no defined return
(the DOM parse diverged or overflowed). -/
def parse_assetmap (doc : Option XmlDoc) (base_url : String) (fuel : Nat) :
    Option (Int × ParseState) :=
  let st0 : ParseState := { asset_map := imf_asset_map_alloc, live := 0 }
  match parse_imf_asset_map_from_xml_dom doc st0 base_url fuel with
  | .out ret st => some (ret, st)
  | .diverge => none
  | .overflow => none

/-- `imf_read_header` (lines 219–247): parse the CPL (external to this file;
its return code is the `cplRet` argument), then the asset map; only a
negative return from either takes the `fail` path, otherwise the open
succeeds with return 0. -/
def imf_read_header (cplRet : Int) (doc : Option XmlDoc) (base_url : String)
    (fuel : Nat) : Option Int :=
  if cplRet < 0 then some cplRet
  else
    match parse_assetmap doc base_url fuel with
    | none => none
    | some (ret, _) => if ret < 0 then some ret else some 0

/-- `IMFContext` (lines 55–63), the demuxer's private data, with the external
handles (AVClass, interrupt callback, dictionary, CPL) abstracted away. -/
structure IMFContext where
  base_url : Option String
  asset_map_path : Option String
  asset_map : Option IMFAssetMap
deriving DecidableEq, Repr

/-- A demuxed packet.  `ff_imf_read_packet` never constructs one. -/
structure Packet where
  data : List Nat
deriving DecidableEq, Repr

/-- `ff_imf_read_packet` (lines 249–251): the body is `return AVERROR_EOF;`;
the context and the output packet slot are untouched. -/
def ff_imf_read_packet (_c : IMFContext) : Int × Option Packet :=
  (AVERROR_EOF, none)

/-! ## Heap model for the registry lifecycle

`imf_asset_map_free` is specified against an explicit heap of live
allocations: registries are identified by an id carrying the ids of the entry
allocations they own.  `av_free` of a pointer that is not a live allocation
(and any read through it, such as the `asset_map->asset_count` loop bound) is
undefined behaviour, modelled as `fault`. -/

structure Heap where
  regs : List (Nat × List Nat)
  entries : List Nat
deriving DecidableEq, Repr

inductive FreeResult where
  | ok (h : Heap)
  | fault
deriving DecidableEq, Repr

/-- `imf_asset_map_free` (lines 145–156): a NULL registry returns
immediately; otherwise the function reads `asset_count` and `assets[i]`
through the pointer and frees every entry, the array and the registry — so
the pointer must still be a live registry, else the reads and frees are
undefined behaviour (`fault`). -/
def imf_asset_map_free (h : Heap) (p : Option Nat) : FreeResult :=
  match p with
  | none => .ok h
  | some id =>
    match h.regs.lookup id with
    | none => .fault
    | some es =>
      .ok { regs := h.regs.filter (fun r => r.1 ≠ id),
            entries := h.entries.filter (fun e => ¬ es.contains e) }

/-! ## Derived shape predicates and expected values -/

/-- An `Asset` element the parser's loop body accepts: its tag matches
`Asset`, its `Id` text decodes as a UUID, and it has a `ChunkList` with a
`Chunk` child.  (The loop makes no demand on `Path`.) -/
def assetWellFormed (n : XmlElem) : Bool :=
  (av_strcasecmp n.name "Asset" == 0) &&
  (xml_read_UUID (xml_get_child_element_by_name n "Id")).isSome &&
  (match xml_get_child_element_by_name n "ChunkList" with
   | none => false
   | some cl => (xml_get_child_element_by_name cl "Chunk").isSome)

/-- The first `Chunk` of an asset's `ChunkList`, when both exist. -/
def chunkOf (n : XmlElem) : Option XmlElem :=
  match xml_get_child_element_by_name n "ChunkList" with
  | none => none
  | some cl => xml_get_child_element_by_name cl "Chunk"

/-- The text the parser reads for an asset's path: the content of the first
`Chunk`'s `Path` child. -/
def assetPathContent (n : XmlElem) : Option String :=
  match chunkOf n with
  | none => none
  | some ch => xmlNodeGetContent (xml_get_child_element_by_name ch "Path")

/-- The locator the loop body constructs for a well-formed asset. -/
def assetLocatorOf (base : String) (n : XmlElem) : AssetLocator :=
  { uuid := (xml_read_UUID (xml_get_child_element_by_name n "Id")).getD [],
    absolute_uri := (av_append_path_component (some base) (assetPathContent n)).getD "" }

/-- Net heap allocations the loop body makes for one appended entry: the
locator struct and its `strdup`'d URI, plus the `xmlNodeGetContent` string
that line 118 overwrites without freeing whenever a `Path` child exists. -/
def assetLiveDelta (n : XmlElem) : Nat :=
  2 + (if (assetPathContent n).isSome then 1 else 0)

/-! ## Concrete fixtures -/

def sampleUUIDText : String := "8e2c1a4e-7b3d-4f1a-9c2e-1234567890ab"

def sampleUUID : List Nat :=
  [0x8e, 0x2c, 0x1a, 0x4e, 0x7b, 0x3d, 0x4f, 0x1a,
   0x9c, 0x2e, 0x12, 0x34, 0x56, 0x78, 0x90, 0xab]

def idElem : XmlElem := .mk "Id" [] sampleUUIDText

def pathElem (p : String) : XmlElem := .mk "Path" [] p

def chunkElem (p : String) : XmlElem := .mk "Chunk" [pathElem p] ""

def assetElem (p : String) : XmlElem :=
  .mk "Asset" [idElem, .mk "ChunkList" [chunkElem p] ""] ""

def mkAssetMapDoc (assets : List XmlElem) : XmlDoc :=
  ⟨some (.mk "AssetMap" [.mk "AssetList" assets ""] "")⟩

/-- The parser's starting state: the freshly allocated empty registry of
`parse_assetmap`, no outstanding parser allocations. -/
def initState : ParseState :=
  { asset_map := imf_asset_map_alloc, live := 0 }

/-- An `Asset` with a valid `Id` but no `ChunkList` child. -/
def missingChunkListAsset : XmlElem := .mk "Asset" [idElem] ""

/-! ## Theorems -/

/-- C2: the `while` loop of `parse_imf_asset_map_from_xml_dom` does NOT skip
a non-`Asset` child by advancing to its next sibling: the `continue` on line
94 leaves the cursor unchanged, so as soon as the first remaining child is
not (case-insensitively) named `Asset` the loop re-examines the same node and
never terminates, for every amount of fuel. -/
theorem nonAsset_child_never_terminates (base : String) (n : XmlElem)
    (rest : List XmlElem) (st : ParseState)
    (hname : av_strcasecmp n.name "Asset" ≠ 0) :
    ∀ fuel, parse_asset_loop base fuel (n :: rest) st = .diverge := by
  intro fuel
  induction fuel with
  | zero => rfl
  | succ k ih => simp only [parse_asset_loop, if_pos hname]; exact ih

/-- Witness: on an `AssetList` whose only child is `<Metadata/>`, the loop
diverges (here at fuel 1000). -/
theorem nonAsset_child_never_terminates_witness :
    parse_asset_loop "/mnt/imf/pkg" 1000 [.mk "Metadata" [] ""] initState = .diverge :=
  nonAsset_child_never_terminates "/mnt/imf/pkg" (.mk "Metadata" [] "") [] initState
    (by decide) 1000

/-- C3: on an `Asset` with no `Id` child, `parse_imf_asset_map_from_xml_dom`
returns `1` (line 102) — a positive value, not the `AVERROR_INVALIDDATA`
(`SchemaError`) code — and since `imf_read_header` only treats negative
returns as failure (line 236), the package open completes with 0 (success)
instead of propagating an error. -/
theorem missing_id_open_still_succeeds :
    parse_imf_asset_map_from_xml_dom
        (some (mkAssetMapDoc [.mk "Asset" [.mk "ChunkList" [chunkElem "video.mxf"] ""] ""]))
        initState "/mnt/imf/pkg" 2
      = .out 1 initState ∧
    (1 : Int) ≠ AVERROR_INVALIDDATA ∧ ¬ ((1 : Int) < 0) ∧
    imf_read_header 0
        (some (mkAssetMapDoc [.mk "Asset" [.mk "ChunkList" [chunkElem "video.mxf"] ""] ""]))
        "/mnt/imf/pkg" 2
      = some 0 := by decide

/-- C4: schema failures inside the loop are not allocation-balanced: with a
valid `Id` but a missing `ChunkList` (or a `ChunkList` with no `Chunk`), the
parser returns `AVERROR_INVALIDDATA` while the `IMFAssetLocator` allocated on
line 97 is never freed — one live allocation remains, not zero. -/
theorem schema_failure_leaks_allocation :
    parse_imf_asset_map_from_xml_dom (some (mkAssetMapDoc [missingChunkListAsset]))
        initState "/mnt/imf/pkg" 2
      = .out AVERROR_INVALIDDATA { asset_map := imf_asset_map_alloc, live := 1 } ∧
    parse_imf_asset_map_from_xml_dom
        (some (mkAssetMapDoc [.mk "Asset" [idElem, .mk "ChunkList" [] ""] ""]))
        initState "/mnt/imf/pkg" 2
      = .out AVERROR_INVALIDDATA { asset_map := imf_asset_map_alloc, live := 1 } ∧
    (1 : Nat) ≠ 0 := by decide

/-- C5: an `Asset` whose `Chunk` has no `Path` child, or whose `Path` text is
empty, does not fail: no check exists (line 117 feeds the possibly-NULL
content straight into the join), the parse returns 0 and appends an entry
whose `absolute_uri` is just the base directory. -/
theorem missing_or_empty_path_still_appends_entry :
    parse_imf_asset_map_from_xml_dom
        (some (mkAssetMapDoc [.mk "Asset" [idElem, .mk "ChunkList" [.mk "Chunk" [] ""] ""] ""]))
        initState "/mnt/imf/pkg" 2
      = .out 0 { asset_map := { assets := [{ uuid := sampleUUID, absolute_uri := "/mnt/imf/pkg" }],
                                asset_count := 1 },
                 live := 2 } ∧
    parse_imf_asset_map_from_xml_dom (some (mkAssetMapDoc [assetElem ""]))
        initState "/mnt/imf/pkg" 2
      = .out 0 { asset_map := { assets := [{ uuid := sampleUUID, absolute_uri := "/mnt/imf/pkg" }],
                                asset_count := 1 },
                 live := 3 } := by decide

/-- C6: the path resolution on line 118 is an unconditional join — a `Path`
that is a URL with a scheme is NOT returned verbatim: with base directory
`/mnt/imf/pkg` and `Path = "https://cdn.example/clip.mxf"` the produced
`absolute_uri` is the join of the two, not the URL. -/
theorem url_path_not_returned_verbatim :
    parse_imf_asset_map_from_xml_dom
        (some (mkAssetMapDoc [assetElem "https://cdn.example/clip.mxf"]))
        initState "/mnt/imf/pkg" 2
      = .out 0 { asset_map :=
                   { assets := [{ uuid := sampleUUID,
                                  absolute_uri := "/mnt/imf/pkg/https://cdn.example/clip.mxf" }],
                     asset_count := 1 },
                 live := 3 } ∧
    ("/mnt/imf/pkg/https://cdn.example/clip.mxf" : String) ≠ "https://cdn.example/clip.mxf" := by
  decide

/-- C8: `ff_imf_read_packet` (lines 249–251) returns `AVERROR_EOF` for every
context and produces no packet: the demuxer never emits any packet. -/
theorem read_packet_always_eof (c : IMFContext) :
    ff_imf_read_packet c = (AVERROR_EOF, none) := rfl

/-- C9: a NULL document from the XML reader is handled without a crash:
`xmlDocGetRootElement` of a NULL document is NULL, so
`parse_imf_asset_map_from_xml_dom` takes the missing-root branch and returns
`AVERROR_INVALIDDATA`, exactly as for a document with no root element,
leaving the registry state unchanged. -/
theorem null_document_is_missing_root (st : ParseState) (base : String) (fuel : Nat) :
    parse_imf_asset_map_from_xml_dom none st base fuel = .out AVERROR_INVALIDDATA st ∧
    parse_imf_asset_map_from_xml_dom (some ⟨none⟩) st base fuel
      = .out AVERROR_INVALIDDATA st :=
  ⟨rfl, rfl⟩

/-- Running the loop on a list of well-formed `Asset` elements followed by
any tail appends exactly one locator per well-formed asset, in list order,
and continues on the tail — provided the appends stay within the undersized
realloc'd block, i.e. no more than 3 entries in total. -/
theorem parse_asset_loop_good_run (base : String) :
    ∀ (good tail : List XmlElem) (st : ParseState) (fuel : Nat),
      (∀ n ∈ good, assetWellFormed n = true) →
      st.asset_map.asset_count + good.length ≤ 3 →
      parse_asset_loop base (good.length + fuel) (good ++ tail) st =
        parse_asset_loop base fuel tail
          { asset_map := { assets := st.asset_map.assets ++ good.map (assetLocatorOf base),
                           asset_count := st.asset_map.asset_count + good.length },
            live := st.live + (good.map assetLiveDelta).sum } := by
  intro good
  induction good with
  | nil =>
    intro tail st fuel _ _
    obtain ⟨⟨as, cnt⟩, lv⟩ := st
    simp
  | cons n rest ih =>
    intro tail st fuel hwf hlen
    have hn := hwf n (List.mem_cons_self n rest)
    have hrest : ∀ m ∈ rest, assetWellFormed m = true :=
      fun m hm => hwf m (List.mem_cons_of_mem n hm)
    simp only [assetWellFormed, Bool.and_eq_true, beq_iff_eq] at hn
    obtain ⟨⟨h1, h2⟩, h3⟩ := hn
    obtain ⟨u, hu⟩ := Option.isSome_iff_exists.mp h2
    cases hcl : xml_get_child_element_by_name n "ChunkList" with
    | none => rw [hcl] at h3; exact absurd h3 (by simp)
    | some cl =>
      rw [hcl] at h3
      obtain ⟨ch, hch⟩ := Option.isSome_iff_exists.mp h3
      have hlen' : st.asset_map.asset_count ≤ 2 := by
        have := List.length_cons n rest ▸ hlen
        omega
      have hfit : (st.asset_map.asset_count + 1) * SIZEOF_PTR
          ≤ st.asset_map.asset_count + SIZEOF_IMF_ASSET_LOCATOR := by
        simp only [SIZEOF_PTR, SIZEOF_IMF_ASSET_LOCATOR]
        omega
      have hstep :
          parse_asset_loop base (rest.length + fuel + 1) (n :: (rest ++ tail)) st =
          parse_asset_loop base (rest.length + fuel) (rest ++ tail)
            { asset_map := { assets := st.asset_map.assets ++ [assetLocatorOf base n],
                             asset_count := st.asset_map.asset_count + 1 },
              live := st.live + assetLiveDelta n } := by
        simp only [parse_asset_loop, h1, hu, hcl, hch, ne_eq, not_true_eq_false, if_false,
          assetLocatorOf, assetLiveDelta, assetPathContent, chunkOf, Option.getD_some,
          hfit, if_true]
        generalize (if (xmlNodeGetContent (xml_get_child_element_by_name ch "Path")).isSome = true
            then 1 else 0) = X
        congr 2
        omega
      have hfuel : (n :: rest).length + fuel = rest.length + fuel + 1 := by
        simp [List.length_cons]
        omega
      rw [List.cons_append, hfuel, hstep, ih _ _ _ hrest (by simp at hlen ⊢; omega)]
      simp [List.append_assoc, Nat.add_assoc, Nat.add_comm, Nat.add_left_comm]

/-- C1: the claim's for-every-N success fails at N = 4.  Three well-formed
assets still parse to a count-3 registry in document order, but the 4th
append writes past the end of the block allocated on line 126
(`asset_count + 1 * sizeof(IMFAssetLocator)` bytes — a precedence slip — is
smaller than the `(asset_count + 1)` pointer slots the store needs): a heap
buffer overflow instead of a count-4 registry. -/
theorem wellformed_parse_overflows_at_fourth_asset :
    parse_imf_asset_map_from_xml_dom
        (some (mkAssetMapDoc [assetElem "a.mxf", assetElem "b.mxf", assetElem "c.mxf"]))
        initState "/mnt/imf/pkg" 4
      = .out 0 { asset_map :=
                   { assets := [{ uuid := sampleUUID, absolute_uri := "/mnt/imf/pkg/a.mxf" },
                                { uuid := sampleUUID, absolute_uri := "/mnt/imf/pkg/b.mxf" },
                                { uuid := sampleUUID, absolute_uri := "/mnt/imf/pkg/c.mxf" }],
                     asset_count := 3 },
                 live := 9 } ∧
    parse_imf_asset_map_from_xml_dom
        (some (mkAssetMapDoc
          [assetElem "a.mxf", assetElem "b.mxf", assetElem "c.mxf", assetElem "d.mxf"]))
        initState "/mnt/imf/pkg" 5
      = .overflow := by decide

/-- Any return from the loop (success or failure) only ever appends to the
registry: the entries present on entry are still its initial segment. -/
theorem parse_asset_loop_keeps_entries (base : String) :
    ∀ (fuel : Nat) (nodes : List XmlElem) (st : ParseState) (ret : Int) (st' : ParseState),
      parse_asset_loop base fuel nodes st = .out ret st' →
      st.asset_map.assets <+: st'.asset_map.assets := by
  intro fuel
  induction fuel with
  | zero => intro nodes st ret st' h; exact absurd h (by simp [parse_asset_loop])
  | succ k ih =>
    intro nodes st ret st' h
    match nodes with
    | [] =>
      simp only [parse_asset_loop, LoopResult.out.injEq] at h
      rw [← h.2]
    | n :: rest =>
      by_cases hname : av_strcasecmp n.name "Asset" ≠ 0
      · simp only [parse_asset_loop, if_pos hname] at h
        exact ih _ _ _ _ h
      · simp only [parse_asset_loop, if_neg hname] at h
        split at h
        · injection h with h1 h2
          subst h2
          exact List.prefix_rfl
        · split at h
          · injection h with h1 h2
            subst h2
            exact List.prefix_rfl
          · split at h
            · injection h with h1 h2
              subst h2
              exact List.prefix_rfl
            · split at h
              · exact List.IsPrefix.trans (List.prefix_append _ _) (ih _ _ _ _ h)
              · simp at h

/-- C10: on every failure return of the whole parse (run from the freshly
allocated registry) whose `AssetList` children start with well-formed,
appended assets, those entries remain the registry's initial segment
unchanged — the parser performs no rollback (the registry's release is left
to the close/teardown path, the only caller of `imf_asset_map_free`).  The
`good.length ≤ 3` bound restricts the statement to the executions the C
defines at all: a 4th append overflows (is `.overflow`, never `.out`), so
every failure return arises from at most 3 appended entries. -/
theorem failed_parse_performs_no_rollback (base : String) (good tail : List XmlElem)
    (fuel : Nat) (ret : Int) (st' : ParseState)
    (hwf : ∀ n ∈ good, assetWellFormed n = true)
    (hlen : good.length ≤ 3)
    (h : parse_imf_asset_map_from_xml_dom (some (mkAssetMapDoc (good ++ tail)))
           initState base (good.length + fuel) = .out ret st')
    (_hret : ret ≠ 0) :
    st'.asset_map.assets.take good.length = good.map (assetLocatorOf base) := by
  have h' : parse_asset_loop base (good.length + fuel) (good ++ tail) initState
      = .out ret st' := h
  rw [parse_asset_loop_good_run base good tail initState fuel hwf
    (by simpa [initState, imf_asset_map_alloc] using hlen)] at h'
  have hpre := parse_asset_loop_keeps_entries base fuel tail _ ret st' h'
  have htake := List.prefix_iff_eq_take.mp hpre
  simpa [initState, imf_asset_map_alloc] using htake.symm

/-- Witness: after one good entry, an `Asset` with no `ChunkList` fails the
parse with the first entry still in the registry. -/
theorem failed_parse_performs_no_rollback_witness :
    (({ asset_map := { assets := [{ uuid := sampleUUID,
                                    absolute_uri := "/mnt/imf/pkg/video.mxf" }],
                       asset_count := 1 },
        live := 4 } : ParseState)).asset_map.assets.take 1
      = [assetElem "video.mxf"].map (assetLocatorOf "/mnt/imf/pkg") :=
  failed_parse_performs_no_rollback "/mnt/imf/pkg" [assetElem "video.mxf"]
    [missingChunkListAsset] 1 AVERROR_INVALIDDATA
    { asset_map := { assets := [{ uuid := sampleUUID, absolute_uri := "/mnt/imf/pkg/video.mxf" }],
                     asset_count := 1 },
      live := 4 }
    (by decide) (by decide) (by decide) (by decide)

/-- After filtering out every pair whose key is `id`, looking `id` up finds
nothing. -/
theorem lookup_filter_self_none (id : Nat) :
    ∀ l : List (Nat × List Nat), (l.filter (fun r => r.1 ≠ id)).lookup id = none := by
  intro l
  induction l with
  | nil => rfl
  | cons a t ih =>
    obtain ⟨k, v⟩ := a
    by_cases h : k = id
    · simpa [List.filter_cons, h] using ih
    · have hne : (id == k) = false := by simp [Ne.symm h]
      simp [List.filter_cons, h, List.lookup, hne, ih]
      exact fun a b _ hne2 => Ne.symm hne2

/-- C7 counterexample: releasing a registry and then releasing the same
(now dangling, non-null) registry again is not a no-op: the second call
reads and frees through a dead pointer, a fault. -/
theorem double_release_faults :
    imf_asset_map_free { regs := [(0, [10, 11])], entries := [10, 11] } (some 0)
      = .ok { regs := [], entries := [] } ∧
    imf_asset_map_free { regs := [], entries := [] } (some 0) = .fault := by
  decide

/-- C7 (amended): `imf_asset_map_free` on a live registry frees the registry
and every one of its entries; on a NULL registry it is a no-op and never
faults; but it must be called at most once per live registry — a second call
on the same, already-released registry faults. -/
theorem release_frees_registry_and_entries (h h2 : Heap) (id : Nat) (es : List Nat)
    (hlive : h.regs.lookup id = some es)
    (hfree : imf_asset_map_free h (some id) = .ok h2) :
    imf_asset_map_free h none = .ok h ∧
    h2.regs = h.regs.filter (fun r => r.1 ≠ id) ∧
    h2.entries = h.entries.filter (fun e => ¬ es.contains e) ∧
    imf_asset_map_free h2 (some id) = .fault := by
  have hfree' : imf_asset_map_free h (some id)
      = .ok { regs := h.regs.filter (fun r => r.1 ≠ id),
              entries := h.entries.filter (fun e => ¬ es.contains e) } := by
    simp only [imf_asset_map_free, hlive]
  rw [hfree'] at hfree
  have hh : ({ regs := h.regs.filter (fun r => r.1 ≠ id),
               entries := h.entries.filter (fun e => ¬ es.contains e) } : Heap) = h2 := by
    injection hfree
  subst hh
  refine ⟨rfl, rfl, rfl, ?_⟩
  simp only [imf_asset_map_free]
  rw [lookup_filter_self_none id h.regs]

/-- Witness: releasing the one-registry heap frees registry 0 and entries
10 and 11; releasing NULL leaves the heap alone; releasing 0 again faults. -/
theorem release_frees_registry_and_entries_witness :
    imf_asset_map_free { regs := [(0, [10, 11])], entries := [10, 11] } none
      = .ok { regs := [(0, [10, 11])], entries := [10, 11] } ∧
    ([] : List (Nat × List Nat))
      = ([(0, [10, 11])] : List (Nat × List Nat)).filter (fun r => r.1 ≠ 0) ∧
    ([] : List Nat) = ([10, 11] : List Nat).filter (fun e => ¬ ([10, 11] : List Nat).contains e) ∧
    imf_asset_map_free { regs := [], entries := [] } (some 0) = .fault :=
  release_frees_registry_and_entries
    { regs := [(0, [10, 11])], entries := [10, 11] }
    { regs := [], entries := [] } 0 [10, 11] (by decide) (by decide)

end Imfdec
